import Mathlib

/-!
# Verification of `meta-active-learning`

A shallow embedding, in Lean 4, of the original logic of the two scripts
`mnist_bayesian_al_ssl_clustering.py` and `src/ssl_vae/dgm.py`:

* the BALD acquisition score computed over Monte-Carlo dropout passes,
* the top-`Queries` selection via `argsort`,
* the withholding of pool labels with the sentinel value `10` and the
  oracle query step,
* the per-iteration pool update and fresh-model construction,
* the `StackedDeepGenerativeModel` forward pass and parameter freezing,
* the command-line interface and environment setup.

NumPy arrays are modelled as Lean lists, image tensors as values of an
abstract type, feature vectors as `List ℚ`, and probabilities as real
numbers (`np.log2` becomes `Real.logb 2`).  Fancy indexing `a[idxs]`
becomes a `map` of `List.getD`, boolean masking `a[m]` a `filter`, and
`np.where` a filtered index range.
-/

/-! ## Constants of `mnist_bayesian_al_ssl_clustering.py` -/

/-- Line 182: `num_classes = 10`. -/
def num_classes : ℕ := 10

/-- Line 286: `acquisition_iterations = 1000`. -/
def acquisition_iterations : ℕ := 1000

/-- Line 289: `dropout_iterations = 3`. -/
def dropout_iterations : ℕ := 3

/-- Line 290: `Queries = 10`. -/
def Queries : ℕ := 10

/-- Line 297: `pool_subset = 2000`. -/
def pool_subset : ℕ := 2000

/-- Line 230: `oracle = KNOracle(..., n_neighbors=3, n_jobs=2)`. -/
def oracle_n_neighbors : ℕ := 3

/-! ## BALD acquisition score (lines 302-329)

A stochastic forward pass `model.predict` in dropout iteration `d` yields,
for pool point `i`, a predictive distribution over the `num_classes`
classes; we abstract the network as a function
`predict : ℕ → Fin pool_subset → Fin num_classes → ℝ`. -/

/-- The loop of lines 305-319.  Starting from
`score_All = np.zeros((N, num_classes))` and
`All_Entropy_Dropout = np.zeros(N)`, each dropout iteration `d` adds the
dropout scores to `score_All` and the per-point entropy
`np.sum(-dropout_score * np.log2(dropout_score), axis=1)` to
`All_Entropy_Dropout`. -/
noncomputable def dropoutAccum (predict : ℕ → Fin pool_subset → Fin num_classes → ℝ) :
    (Fin pool_subset → Fin num_classes → ℝ) × (Fin pool_subset → ℝ) :=
  (List.range dropout_iterations).foldl
    (fun acc d =>
      (fun i c => acc.1 i c + predict d i c,
       fun i => acc.2 i + ∑ c : Fin num_classes,
         -(predict d i c * Real.logb 2 (predict d i c))))
    (fun _ _ => 0, fun _ => 0)

/-- Lines 322-329: `Avg_Pi = score_All / dropout_iterations`,
`Entropy_Average_Pi = np.sum(-Avg_Pi * np.log2(Avg_Pi), axis=1)`,
`Average_Entropy = All_Entropy_Dropout / dropout_iterations`, and
`U_X = Entropy_Average_Pi - Average_Entropy`. -/
noncomputable def U_X (predict : ℕ → Fin pool_subset → Fin num_classes → ℝ)
    (i : Fin pool_subset) : ℝ :=
  let score_All := (dropoutAccum predict).1
  let All_Entropy_Dropout := (dropoutAccum predict).2
  let Avg_Pi : Fin num_classes → ℝ := fun c => score_All i c / (dropout_iterations : ℝ)
  let Entropy_Average_Pi : ℝ :=
    ∑ c : Fin num_classes, -(Avg_Pi c * Real.logb 2 (Avg_Pi c))
  let Average_Entropy : ℝ := All_Entropy_Dropout i / (dropout_iterations : ℝ)
  Entropy_Average_Pi - Average_Entropy

/-- Base-2 entropy of a distribution over the classes, as the spec words it:
the entropy `-∑ p log₂ p` computed with `np.log2`. -/
noncomputable def entropyBase2 (p : Fin num_classes → ℝ) : ℝ :=
  ∑ c : Fin num_classes, -(p c * Real.logb 2 (p c))

/-! ## Top-`Queries` selection (lines 331-332)

`a_1d = U_X.flatten(); x_pool_index = a_1d.argsort()[-Queries:][::-1]`.
`np.argsort` returns a permutation of the index range that sorts the
scores ascending; we realise it with insertion sort. -/

/-- `a_1d.argsort()`: a permutation of `[0, ..., n-1]` ordered by
ascending score. -/
def argsort (scores : List ℚ) : List (Fin scores.length) :=
  List.insertionSort (fun i j => scores.get i ≤ scores.get j)
    (List.finRange scores.length)

/-- `a_1d.argsort()[-Queries:][::-1]`: the last `Queries` entries of the
ascending argsort, reversed. -/
def x_pool_index (scores : List ℚ) : List (Fin scores.length) :=
  ((argsort scores).drop (scores.length - Queries)).reverse

/-! ## Withholding pool labels from the oracle (lines 155-176, 226-230) -/

/-- NumPy rounding `np.round(n * 0.5)`: `n * 0.5` is exact in double
precision, and NumPy rounds halves to the nearest even integer. -/
def npRoundHalf (n : ℕ) : ℕ :=
  if n % 2 = 0 then n / 2
  else if (n / 2) % 2 = 0 then n / 2
  else n / 2 + 1

/-- Lines 155-161.  `z = np.arange(np.int(np.round(x_pool.shape[0]*0.5)))`
is the set of indices `{0, ..., round(n/2) - 1}`; `np.random.shuffle(z)`
permutes `z` but leaves that set unchanged, and `y_pool[z] = 10` then sets
the label at exactly those positions to `10`. -/
def remove_pool_labels_for_oracle (x_pool : List α) (y_pool : List ℕ) : List ℕ :=
  y_pool.mapIdx (fun i v => if i < npRoundHalf x_pool.length then 10 else v)

/-- Lines 164-170: `np.where(Pooled_Y == 10)`, the ascending list of
positions whose label is `10`. -/
def get_pool_index_unknown_to_oracle (Pooled_Y : List ℕ) : List ℕ :=
  (List.range Pooled_Y.length).filter (fun i => Pooled_Y.getD i 0 == 10)

/-- Line 228: `x_pool_with_labels = x_pool[y_pool != 10]` (boolean-mask
indexing, rendered as a filter of the zipped rows). -/
def x_pool_with_labels (x_pool : List α) (y_pool : List ℕ) : List α :=
  ((x_pool.zip y_pool).filter (fun p => p.2 != 10)).map Prod.fst

/-- Line 229: `y_pool_with_labels = y_pool[y_pool != 10]`. -/
def y_pool_with_labels (y_pool : List ℕ) : List ℕ :=
  y_pool.filter (fun v => v != 10)

/-! ## The k-nearest-neighbour oracle (line 230 and lines 341-349)

`KNOracle` is imported from `oracle.py`, which is not part of the
repository snapshot; only its construction and call site are. -/

/-- Squared Euclidean distance between two feature vectors. -/
def sq_dist (x y : List ℚ) : ℚ :=
  ((x.zip y).map (fun p => (p.1 - p.2) ^ 2)).sum

/-- Modelled from the spec: `KNOracle.assign_nearest_available_label`,
described by the spec as "a k-nearest-neighbor label lookup" simulating a
human annotator (the class body lives in `oracle.py`, absent from the
snapshot).  The oracle holds the labelled reference rows it was
constructed with; a query point receives the majority label of its
`n_neighbors` nearest reference rows, ties resolved to the smaller
label. -/
def KNOracle.assign_nearest_available_label (refX : List (List ℚ)) (refY : List ℕ)
    (n_neighbors : ℕ) (x : List ℚ) : ℕ :=
  let sorted := List.insertionSort (fun p q => sq_dist x p.1 ≤ sq_dist x q.1)
    (refX.zip refY)
  let labels := (sorted.take n_neighbors).map Prod.snd
  (List.range num_classes).foldl
    (fun best c => if labels.count best < labels.count c then c else best) 0

/-- Lines 341-349: `index_unknown_to_oracle = get_pool_index_unknown_to_oracle(Pooled_Y)`
followed by
`Pooled_Y[index_unknown_to_oracle] = oracle.assign_nearest_available_label(Pooled_X[index_unknown_to_oracle])`,
where `oracle` was constructed at line 230 with `n_neighbors = 3`.  The
fancy assignment replaces the label at each position in the index list by
the oracle's prediction for the feature row at that position. -/
def assignLabelsStep (refX : List (List ℚ)) (refY : List ℕ)
    (Pooled_X : List (List ℚ)) (Pooled_Y : List ℕ) : List ℕ :=
  let index_unknown_to_oracle := get_pool_index_unknown_to_oracle Pooled_Y
  Pooled_Y.mapIdx (fun i v =>
    if i ∈ index_unknown_to_oracle then
      KNOracle.assign_nearest_available_label refX refY oracle_n_neighbors
        (Pooled_X.getD i [])
    else v)

/-! ## Pool update of an acquisition iteration (lines 296-300, 355-362) -/

/-- NumPy fancy indexing `l[idxs]` for a list of row indices. -/
def numpyIndex (l : List α) (idxs : List ℕ) (d : α) : List α :=
  idxs.map (fun i => l.getD i d)

/-- NumPy deletion `np.delete(l, idxs, axis=0)`: the rows whose index is not in `idxs`.
Computed at lines 355-358 into `delete_Pool_X`, `delete_Pool_Y`,
`delete_Pool_X_Dropout` and `delete_Pool_Y_Dropout`, none of which is read
afterwards. -/
def np_delete (l : List α) (idxs : List ℕ) (d : α) : List α :=
  ((List.range l.length).filter (fun i => !(idxs.contains i))).map
    (fun i => l.getD i d)

/-- Lines 299 and 361: `X_Pool_Dropout = x_pool[pool_subset_dropout]` and
then `x_pool = np.concatenate((x_pool, X_Pool_Dropout), axis=0)` (the
`delete_*` arrays play no part in the update). -/
def poolUpdateIteration (x_pool : List α) (pool_subset_dropout : List ℕ) (d : α) :
    List α :=
  x_pool ++ numpyIndex x_pool pool_subset_dropout d

/-! ## Uniform initial training data (lines 95-152) -/

/-- The occurrence indices `np.array(np.where(y_train == c)).T[:, 0]`: the ascending indices of
the occurrences of class `c` in `y_train`. -/
def class_indices (y_train : List ℕ) (c : ℕ) : List ℕ :=
  (List.range y_train.length).filter (fun i => y_train.getD i 0 == c)

/-- Lines 95-152: for each class `c = 0, ..., 9` take `idx_c[0:2]`, the
first two occurrence indices of `c`, select `x_train[idx_c]` and
`y_train[idx_c]`, and concatenate the ten blocks in class order. -/
def get_uniform_training_data [Inhabited α] (x_train : List α) (y_train : List ℕ) :
    List α × List ℕ :=
  let idx := fun c => (class_indices y_train c).take 2
  let xs := fun c => (idx c).map (fun i => x_train.getD i default)
  let ys := fun c => (idx c).map (fun i => y_train.getD i 0)
  (xs 0 ++ xs 1 ++ xs 2 ++ xs 3 ++ xs 4 ++ xs 5 ++ xs 6 ++ xs 7 ++ xs 8 ++ xs 9,
   ys 0 ++ ys 1 ++ ys 2 ++ ys 3 ++ ys 4 ++ ys 5 ++ ys 6 ++ ys 7 ++ ys 8 ++ ys 9)

/-! ## The dropout CNN built each iteration (lines 259-272 and 367-380) -/

/-- Keras layer activations used by the script. -/
inductive Activation where
  | relu : Activation
  | softmax : Activation
deriving DecidableEq

/-- One `model.add(...)` line of the `Sequential` model. -/
inductive LayerSpec where
  | conv2d (filters : ℕ) (kernel : ℕ × ℕ) (activation : Activation) : LayerSpec
  | maxPooling2d (pool_size : ℕ × ℕ) : LayerSpec
  | dropoutLambda (level : ℚ) : LayerSpec
  | flatten : LayerSpec
  | dense (units : ℕ) (activation : Activation) : LayerSpec
deriving DecidableEq

/-- Lines 259-269: the architecture of the initial model. -/
def initial_model_architecture : List LayerSpec :=
  [ .conv2d 32 (3, 3) .relu,
    .conv2d 64 (3, 3) .relu,
    .maxPooling2d (2, 2),
    .dropoutLambda (1 / 4),
    .flatten,
    .dense 128 .relu,
    .dropoutLambda (1 / 2),
    .dense num_classes .softmax ]

/-- Lines 367-377: the architecture of the model rebuilt inside the
acquisition loop. -/
def acquisition_model_architecture : List LayerSpec :=
  [ .conv2d 32 (3, 3) .relu,
    .conv2d 64 (3, 3) .relu,
    .maxPooling2d (2, 2),
    .dropoutLambda (1 / 4),
    .flatten,
    .dense 128 .relu,
    .dropoutLambda (1 / 2),
    .dense num_classes .softmax ]

/-- A compiled Keras model: an architecture together with its parameter
tensors (abstracted as a value of type `P`). -/
structure CompiledModel (P : Type) where
  architecture : List LayerSpec
  params : P
deriving DecidableEq

/-- Lines 367-380 rebind `model`: the loop body constructs a new
`Sequential` model from scratch, whose parameters are the framework's
fresh initialisation `fresh`; the previous iteration's model `prev` is
not read. -/
def build_acquisition_model (prev : CompiledModel P) (fresh : P) : CompiledModel P :=
  { architecture := acquisition_model_architecture, params := fresh }

/-! ## `dgm.py`: forward passes (lines 72-84 and 124-129)

Tensors are modelled as `List ℚ`; `torch.cat([a, b], dim=1)` on a single
row becomes list append.  The sub-modules `classifier`, `encoder` and
`decoder` are abstracted as functions; `encoder` returns the triple
`(z, z_mu, z_log_var)`. -/

/-- The sub-modules of a `DeepGenerativeModel` that `forward` reads. -/
structure DGM where
  classifier : List ℚ → List ℚ
  encoder : List ℚ → List ℚ × List ℚ × List ℚ
  decoder : List ℚ → List ℚ

/-- The two possible results of `DeepGenerativeModel.forward`: the logits
alone (when `y is None`) or `reconstruction, logits, [[z, z_mu, z_log_var]]`. -/
inductive ForwardOut where
  | logitsOnly (logits : List ℚ) : ForwardOut
  | full (reconstruction : List ℚ) (logits : List ℚ)
      (latents : List (List ℚ × List ℚ × List ℚ)) : ForwardOut
deriving DecidableEq

/-- Lines 72-84 of `dgm.py`: compute the classifier logits; with `y = None`
return them; otherwise encode `cat([x, y])`, decode `cat([z, y])` and
return `reconstruction, logits, [[z, z_mu, z_log_var]]`. -/
def DeepGenerativeModel.forward (m : DGM) (x : List ℚ) (y : Option (List ℚ)) :
    ForwardOut :=
  let logits := m.classifier x
  match y with
  | none => .logitsOnly logits
  | some yv =>
    let zt := m.encoder (x ++ yv)
    let reconstruction := m.decoder (zt.1 ++ yv)
    .full reconstruction logits [zt]

/-- A `StackedDeepGenerativeModel` as `forward` sees it: the inherited
`DeepGenerativeModel` sub-modules plus the pretrained M1 features model's
encoder, which returns `(x_sample, mu, log_var)`. -/
structure StackedDGM where
  toDGM : DGM
  features_encoder : List ℚ → List ℚ × List ℚ × List ℚ

/-- Lines 124-129 of `dgm.py`:
`x_sample, _, _ = self.features.encoder(x)` followed by
`return super(StackedDeepGenerativeModel, self).forward(x_sample, y)`. -/
def StackedDeepGenerativeModel.forward (s : StackedDGM) (x : List ℚ)
    (y : Option (List ℚ)) : ForwardOut :=
  let x_sample := (s.features_encoder x).1
  DeepGenerativeModel.forward s.toDGM x_sample y

/-! ## `dgm.py`: parameter freezing in `StackedDeepGenerativeModel.__init__`
(lines 102-122)

For this claim the relevant state is each parameter's value and
`requires_grad` flag and each module's training mode. -/

/-- A PyTorch parameter: its value (abstracted to one rational) and its
`requires_grad` flag. -/
structure PyParam where
  value : ℚ
  requiresGrad : Bool
deriving DecidableEq

/-- A PyTorch module: its parameters and its training-mode flag. -/
structure TorchModule where
  params : List PyParam
  training : Bool
deriving DecidableEq

/-- The parameter state of a `StackedDeepGenerativeModel`: the stored
features model and the parameter lists of the encoder, decoder and
classifier created by `DeepGenerativeModel.__init__` (with the decoder's
reconstruction layer already replaced, line 115). -/
structure StackedModelState where
  features : TorchModule
  encoder_params : List PyParam
  decoder_params : List PyParam
  classifier_params : List PyParam
deriving DecidableEq

/-- A freshly constructed `nn.Linear` parameter list: values from the
initialiser, `requires_grad = True` (the PyTorch default). -/
def mkLinearParams (vals : List ℚ) : List PyParam :=
  vals.map (fun v => { value := v, requiresGrad := true })

/-- Lines 110-122 of `dgm.py`: the super constructor builds the encoder,
decoder and classifier out of fresh `nn.Linear` layers (and line 115
replaces `decoder.reconstruction` by another fresh `nn.Linear`); then
`self.features = features`, `self.features.train(False)` and
`param.requires_grad = False` for every parameter of `self.features`. -/
def StackedDeepGenerativeModel.init (features : TorchModule)
    (encVals decVals clsVals : List ℚ) : StackedModelState :=
  { features :=
      { params := features.params.map (fun p => { p with requiresGrad := false }),
        training := false },
    encoder_params := mkLinearParams encVals,
    decoder_params := mkLinearParams decVals,
    classifier_params := mkLinearParams clsVals }

/-- One optimizer update over a parameter list: autograd semantics update
only parameters with `requires_grad = True`. -/
def sgdUpdateParams (upd : ℚ → ℚ) (ps : List PyParam) : List PyParam :=
  ps.map (fun p => if p.requiresGrad then { p with value := upd p.value } else p)

/-- One training step of the stacked model: every parameter the model
holds goes through the optimizer. -/
def trainStepAll (upd : ℚ → ℚ) (s : StackedModelState) : StackedModelState :=
  { features := { params := sgdUpdateParams upd s.features.params,
                  training := s.features.training },
    encoder_params := sgdUpdateParams upd s.encoder_params,
    decoder_params := sgdUpdateParams upd s.decoder_params,
    classifier_params := sgdUpdateParams upd s.classifier_params }

/-! ## Command-line interface and environment setup (lines 27-36, 259) -/

/-- The shape of one `argparse` argument declaration. -/
structure ArgSpec where
  flags : List String
  required : Bool
  isString : Bool
  defaultValue : String
deriving DecidableEq

/-- Lines 30-32: `named_args.add_argument('-g', '--gpu', help=..., required=False, type=str, default='0')`. -/
def gpuArg : ArgSpec :=
  { flags := ["-g", "--gpu"], required := false, isString := true, defaultValue := "0" }

/-- The full set of arguments the parser defines: only the GPU flag. -/
def programArgs : List ArgSpec := [gpuArg]

/-- Parsing `args = parser.parse_args()` restricted to the value of `args.gpu`:
scan the command line for `-g`/`--gpu` and take the following token,
falling back to the default `'0'`. -/
def parseGpu : List String → String
  | [] => "0"
  | [_] => "0"
  | a :: b :: rest => if a = "-g" ∨ a = "--gpu" then b else parseGpu (b :: rest)

/-- The externally visible effects of the script's prelude, in program
order. -/
inductive ProgramEffect where
  | setEnv (key value : String) : ProgramEffect
  | constructModel : ProgramEffect
  | fitModel : ProgramEffect
deriving DecidableEq

/-- Lines 35-36 then 259-280: set `CUDA_DEVICE_ORDER`, write the parsed
GPU index to `CUDA_VISIBLE_DEVICES`, and only afterwards build and train
the first model. -/
def programPrelude (gpu : String) : List ProgramEffect :=
  [ .setEnv "CUDA_DEVICE_ORDER" "PCI_BUS_ID",
    .setEnv "CUDA_VISIBLE_DEVICES" gpu,
    .constructModel,
    .fitModel ]

/-! ## Concrete inputs used by the witnesses -/

/-- A concrete 12-point score vector. -/
def sampleScores : List ℚ := [3, 1, 4, 1, 5, 9, 2, 6, 5, 3, 5, 8]

/-- A concrete pool label vector (no label is the sentinel `10`). -/
def sampleYPool : List ℕ := [5, 6, 7, 8]

/-- A concrete pool feature list matching `sampleYPool`. -/
def sampleXPool : List ℕ := [0, 1, 2, 3]

/-- Concrete oracle reference features. -/
def sampleRefX : List (List ℚ) := [[0, 0], [1, 0], [5, 5], [6, 5]]

/-- Concrete oracle reference labels. -/
def sampleRefY : List ℕ := [1, 1, 7, 7]

/-- Concrete queried features. -/
def samplePooledX : List (List ℚ) := [[0, 1], [5, 6], [9, 9]]

/-- Concrete queried labels: the middle one is unknown to the oracle. -/
def samplePooledY : List ℕ := [4, 10, 2]

/-- A concrete label vector holding each digit `0, ..., 9` twice. -/
def sampleYTrain : List ℕ :=
  [0, 1, 2, 3, 4, 5, 6, 7, 8, 9, 0, 1, 2, 3, 4, 5, 6, 7, 8, 9, 3, 3]

/-- A concrete image list matching `sampleYTrain` (images abstracted to `ℕ`). -/
def sampleXTrain : List ℕ :=
  [100, 101, 102, 103, 104, 105, 106, 107, 108, 109,
   110, 111, 112, 113, 114, 115, 116, 117, 118, 119, 120, 121]

/-! ## General lemmas -/

/-- Membership in `get_pool_index_unknown_to_oracle`: exactly the valid
positions whose label is the sentinel `10`. -/
theorem mem_get_pool_index_unknown_to_oracle {Y : List ℕ} {i : ℕ} :
    i ∈ get_pool_index_unknown_to_oracle Y ↔ i < Y.length ∧ Y.getD i 0 = 10 := by
  simp [get_pool_index_unknown_to_oracle, List.mem_filter, List.mem_range]

/-! ## C6: a fresh model with the initial architecture every iteration -/

/-- C6: each of the `acquisition_iterations = 1000` acquisition iterations
builds and compiles a brand-new model with the same architecture as the
initial model and with freshly initialised parameters; the previous
iteration's model does not enter the construction. -/
theorem claim_C6_fresh_model_each_iteration :
    acquisition_iterations = 1000 ∧
    acquisition_model_architecture = initial_model_architecture ∧
    ∀ (P : Type) (prev prev' : CompiledModel P) (fresh : P),
      build_acquisition_model prev fresh = build_acquisition_model prev' fresh ∧
      (build_acquisition_model prev fresh).architecture = initial_model_architecture ∧
      (build_acquisition_model prev fresh).params = fresh :=
  ⟨rfl, rfl, fun _ _ _ _ => ⟨rfl, rfl, rfl⟩⟩

/-! ## C7: the stacked forward pass delegates to the M2 forward pass -/

/-- C7: `StackedDeepGenerativeModel.forward(x, y)` is exactly
`DeepGenerativeModel.forward` applied, with the same `y`, to the latent
sample drawn from the pretrained M1 features model's encoder on `x`; with
`y = None` it returns only the classifier logits of that latent sample. -/
theorem claim_C7_stacked_forward_delegates :
    ∀ (s : StackedDGM) (x : List ℚ) (y : Option (List ℚ)),
      StackedDeepGenerativeModel.forward s x y =
        DeepGenerativeModel.forward s.toDGM (s.features_encoder x).1 y ∧
      StackedDeepGenerativeModel.forward s x none =
        ForwardOut.logitsOnly (s.toDGM.classifier (s.features_encoder x).1) :=
  fun _ _ _ => ⟨rfl, rfl⟩

/-! ## C8: the features model is frozen by `StackedDeepGenerativeModel.__init__` -/

/-- C8: after `StackedDeepGenerativeModel.__init__` every parameter of the
stored features model has `requires_grad = False` and the features model
is in evaluation mode, so a training step leaves the features parameters
unchanged, while the stacked model's own encoder, decoder and classifier
parameters are all trainable. -/
theorem claim_C8_features_frozen :
    ∀ (features : TorchModule) (encVals decVals clsVals : List ℚ) (upd : ℚ → ℚ),
      (∀ p ∈ (StackedDeepGenerativeModel.init features encVals decVals clsVals).features.params,
        p.requiresGrad = false) ∧
      (StackedDeepGenerativeModel.init features encVals decVals clsVals).features.training = false ∧
      (∀ p ∈ (StackedDeepGenerativeModel.init features encVals decVals clsVals).encoder_params ++
          (StackedDeepGenerativeModel.init features encVals decVals clsVals).decoder_params ++
          (StackedDeepGenerativeModel.init features encVals decVals clsVals).classifier_params,
        p.requiresGrad = true) ∧
      (trainStepAll upd
          (StackedDeepGenerativeModel.init features encVals decVals clsVals)).features.params =
        (StackedDeepGenerativeModel.init features encVals decVals clsVals).features.params := by
  intro features encVals decVals clsVals upd
  refine ⟨?_, rfl, ?_, ?_⟩
  · intro p hp
    simp only [StackedDeepGenerativeModel.init, List.mem_map] at hp
    obtain ⟨q, -, rfl⟩ := hp
    rfl
  · intro p hp
    simp only [StackedDeepGenerativeModel.init, mkLinearParams, List.mem_append,
      List.mem_map] at hp
    rcases hp with (⟨v, -, rfl⟩ | ⟨v, -, rfl⟩) | ⟨v, -, rfl⟩ <;> rfl
  · simp only [trainStepAll, StackedDeepGenerativeModel.init, sgdUpdateParams,
      List.map_map]
    apply List.map_congr_left
    intro p _
    rfl

/-! ## C10: the command-line interface and the environment setup -/

/-- C10: the program defines exactly one command-line flag, `-g`/`--gpu`,
optional, string-valued, with default `'0'`; its parsed value is written
to `CUDA_VISIBLE_DEVICES` (the second effect of the prelude) before any
model is constructed. -/
theorem claim_C10_cli :
    programArgs = [gpuArg] ∧
    programArgs.length = 1 ∧
    gpuArg.flags = ["-g", "--gpu"] ∧
    gpuArg.required = false ∧
    gpuArg.isString = true ∧
    gpuArg.defaultValue = "0" ∧
    parseGpu [] = "0" ∧
    (∀ (v : String) (rest : List String),
      parseGpu ("-g" :: v :: rest) = v ∧ parseGpu ("--gpu" :: v :: rest) = v) ∧
    ∀ gpu : String,
      (programPrelude gpu)[1]? = some (.setEnv "CUDA_VISIBLE_DEVICES" gpu) ∧
      ∀ j : ℕ, (programPrelude gpu)[j]? = some .constructModel → 1 < j := by
  refine ⟨rfl, rfl, rfl, rfl, rfl, rfl, rfl, ?_, ?_⟩
  · intro v rest
    constructor
    · simp [parseGpu]
    · simp [parseGpu]
  · intro gpu
    refine ⟨rfl, ?_⟩
    intro j hj
    match j with
    | 0 => simp [programPrelude] at hj
    | 1 => simp [programPrelude] at hj
    | n + 2 => omega

/-! ## C5: the pool only ever grows -/

/-- C5: after an acquisition iteration the pool is the old pool with the
`pool_subset = 2000` sampled rows appended: it has grown by exactly
`pool_subset` entries, the old pool survives intact as a prefix, and every
sampled (hence every queried) row is still present in the new pool. -/
theorem claim_C5_pool_grows {α : Type} (x_pool : List α) (idxs : List ℕ) (d : α)
    (h1 : ∀ i ∈ idxs, i < x_pool.length) (h2 : idxs.length = pool_subset) :
    pool_subset = 2000 ∧
    (poolUpdateIteration x_pool idxs d).length = x_pool.length + 2000 ∧
    (poolUpdateIteration x_pool idxs d).take x_pool.length = x_pool ∧
    ∀ i ∈ idxs, x_pool.getD i d ∈ poolUpdateIteration x_pool idxs d := by
  refine ⟨rfl, ?_, ?_, ?_⟩
  · unfold poolUpdateIteration numpyIndex
    rw [List.length_append, List.length_map, h2]
    rfl
  · exact List.take_left x_pool _
  · intro i hi
    unfold poolUpdateIteration numpyIndex
    exact List.mem_append_right _ (List.mem_map.mpr ⟨i, hi, rfl⟩)

/-- Witness for C5 at a concrete pool of 2000 rows and the full index
sample. -/
theorem claim_C5_pool_grows_witness :
    (∀ i ∈ List.range 2000, i < (List.range 2000 : List ℕ).length) ∧
    (List.range 2000 : List ℕ).length = pool_subset ∧
    (pool_subset = 2000 ∧
     (poolUpdateIteration (List.range 2000 : List ℕ) (List.range 2000) 0).length =
       (List.range 2000 : List ℕ).length + 2000 ∧
     (poolUpdateIteration (List.range 2000 : List ℕ) (List.range 2000) 0).take
         (List.range 2000 : List ℕ).length = List.range 2000 ∧
     ∀ i ∈ List.range 2000,
       (List.range 2000 : List ℕ).getD i 0 ∈
         poolUpdateIteration (List.range 2000 : List ℕ) (List.range 2000) 0) :=
  ⟨by simp [List.mem_range], by simp [pool_subset],
    claim_C5_pool_grows (List.range 2000) (List.range 2000) 0
      (by simp [List.mem_range]) (by simp [pool_subset])⟩

/-! ## C3: withholding labels and the oracle's reference set -/

/-- Identity map with index: auxiliary for the threshold lemma. -/
theorem mapIdx_id_aux (t : List ℕ) : t.mapIdx (fun _ v => v) = t := by
  rw [List.mapIdx_eq_ofFn]
  exact List.ofFn_get t

/-- Setting the first `k` positions of a list to `10` yields the
`10`-block followed by the tail of the list. -/
theorem mapIdx_threshold (y : List ℕ) : ∀ k : ℕ,
    y.mapIdx (fun i v => if i < k then (10 : ℕ) else v) =
      List.replicate (min k y.length) 10 ++ y.drop k := by
  induction y with
  | nil => intro k; simp
  | cons a t ih =>
    intro k
    cases k with
    | zero =>
      rw [List.mapIdx_cons]
      simp only [Nat.not_lt_zero, if_false]
      rw [mapIdx_id_aux]
      simp
    | succ k' =>
      rw [List.mapIdx_cons]
      simp only [Nat.zero_lt_succ, if_true, Nat.add_lt_add_iff_right]
      rw [ih k']
      have hmin : min (k' + 1) (a :: t).length = min k' t.length + 1 := by
        simp only [List.length_cons]
        omega
      rw [hmin, List.replicate_succ, List.drop_succ_cons]
      rfl

/-- Banker's rounding of `n/2` never exceeds `n`. -/
theorem npRoundHalf_le (n : ℕ) : npRoundHalf n ≤ n := by
  unfold npRoundHalf
  split
  · omega
  · split <;> omega

/-- The mask of line 228/229 keeps exactly the rows whose label differs
from `10`, for an arbitrary label vector (in particular for the
post-withholding pool, where sentinel labels are present). -/
theorem pool_with_labels_filter {α : Type} (x' : List α) (y' : List ℕ)
    (hyx : y'.length ≤ x'.length) :
    (x_pool_with_labels x' y').zip (y_pool_with_labels y') =
      (x'.zip y').filter (fun p => p.2 != 10) := by
  have hF : y_pool_with_labels y' =
      ((x'.zip y').filter (fun p => p.2 != 10)).map Prod.snd := by
    unfold y_pool_with_labels
    conv_lhs => rw [← List.map_snd_zip x' y' hyx]
    rw [List.filter_map]
    rfl
  show (((x'.zip y').filter (fun p => p.2 != 10)).map Prod.fst).zip
      (y_pool_with_labels y') = _
  rw [hF, ← List.unzip_fst, ← List.unzip_snd, List.zip_unzip]

/-- Withholding labels preserves the number of pool points. -/
theorem length_remove_pool_labels {α : Type} (x : List α) (y : List ℕ) :
    (remove_pool_labels_for_oracle x y).length = y.length := by
  unfold remove_pool_labels_for_oracle
  exact List.length_mapIdx

/-- C3: `remove_pool_labels_for_oracle` turns the labels of exactly
`round(0.5 * n)` of the `n` pool points into the sentinel `10`;
`get_pool_index_unknown_to_oracle` returns exactly the positions whose
label is `10`; and the rows handed to the oracle as its reference set are
exactly the rows whose label differs from `10` — for every pool, and in
particular for the post-withholding pool produced by
`remove_pool_labels_for_oracle`, where sentinel labels are present. -/
theorem claim_C3_withheld_labels {α : Type} (x_pool : List α) (y_pool : List ℕ)
    (hlen : x_pool.length = y_pool.length)
    (h10 : ∀ v ∈ y_pool, v ≠ 10) :
    (remove_pool_labels_for_oracle x_pool y_pool).count 10 = npRoundHalf y_pool.length ∧
    (∀ (Q : List ℕ) (i : ℕ), i ∈ get_pool_index_unknown_to_oracle Q ↔
        i < Q.length ∧ Q.getD i 0 = 10) ∧
    (∀ (xs : List α) (ys : List ℕ), ys.length ≤ xs.length →
      (x_pool_with_labels xs ys).zip (y_pool_with_labels ys) =
        (xs.zip ys).filter (fun p => p.2 != 10)) ∧
    (x_pool_with_labels x_pool (remove_pool_labels_for_oracle x_pool y_pool)).zip
        (y_pool_with_labels (remove_pool_labels_for_oracle x_pool y_pool)) =
      (x_pool.zip (remove_pool_labels_for_oracle x_pool y_pool)).filter
        (fun p => p.2 != 10) := by
  refine ⟨?_, fun Q i => mem_get_pool_index_unknown_to_oracle,
    fun xs ys hyx => pool_with_labels_filter xs ys hyx, ?_⟩
  · unfold remove_pool_labels_for_oracle
    rw [hlen, mapIdx_threshold, List.count_append, List.count_replicate]
    have hz : (y_pool.drop (npRoundHalf y_pool.length)).count 10 = 0 := by
      rw [List.count_eq_zero]
      intro hmem
      exact h10 10 ((List.drop_sublist _ _).mem hmem) rfl
    rw [hz]
    simp [Nat.min_eq_left (npRoundHalf_le y_pool.length)]
  · apply pool_with_labels_filter
    rw [length_remove_pool_labels, hlen]

/-- Witness for C3 at a concrete four-point pool; the instantiated
post-withholding conjunct covers labels `[10, 10, 7, 8]`, so the masked
reference set genuinely drops the sentinel rows. -/
theorem claim_C3_withheld_labels_witness :
    (sampleXPool.length = sampleYPool.length) ∧
    (∀ v ∈ sampleYPool, v ≠ 10) ∧
    ((remove_pool_labels_for_oracle sampleXPool sampleYPool).count 10 =
        npRoundHalf sampleYPool.length ∧
      (∀ (Q : List ℕ) (i : ℕ), i ∈ get_pool_index_unknown_to_oracle Q ↔
          i < Q.length ∧ Q.getD i 0 = 10) ∧
      (∀ (xs : List ℕ) (ys : List ℕ), ys.length ≤ xs.length →
        (x_pool_with_labels xs ys).zip (y_pool_with_labels ys) =
          (xs.zip ys).filter (fun p => p.2 != 10)) ∧
      (x_pool_with_labels sampleXPool
          (remove_pool_labels_for_oracle sampleXPool sampleYPool)).zip
          (y_pool_with_labels (remove_pool_labels_for_oracle sampleXPool sampleYPool)) =
        (sampleXPool.zip (remove_pool_labels_for_oracle sampleXPool sampleYPool)).filter
          (fun p => p.2 != 10)) :=
  ⟨rfl, by decide, claim_C3_withheld_labels sampleXPool sampleYPool rfl (by decide)⟩

/-! ## C4: labels via the k-nearest-neighbour oracle -/

/-- C4: in the oracle query step, a queried point whose label is the
sentinel `10` receives the label computed by
`KNOracle.assign_nearest_available_label` with `n_neighbors = 3` on its
feature row, while a queried point with any other label keeps the label it
carried in the pool. -/
theorem claim_C4_oracle_query (refX : List (List ℚ)) (refY : List ℕ)
    (Pooled_X : List (List ℚ)) (Pooled_Y : List ℕ) (i : ℕ)
    (hi : i < Pooled_Y.length) :
    oracle_n_neighbors = 3 ∧
    (assignLabelsStep refX refY Pooled_X Pooled_Y).getD i 0 =
      (if Pooled_Y.getD i 0 = 10
       then KNOracle.assign_nearest_available_label refX refY 3 (Pooled_X.getD i [])
       else Pooled_Y.getD i 0) := by
  refine ⟨rfl, ?_⟩
  unfold assignLabelsStep
  have hi' : i < (Pooled_Y.mapIdx (fun i v =>
      if i ∈ get_pool_index_unknown_to_oracle Pooled_Y then
        KNOracle.assign_nearest_available_label refX refY oracle_n_neighbors
          (Pooled_X.getD i [])
      else v)).length := by
    rw [List.length_mapIdx]
    exact hi
  rw [List.getD_eq_getElem _ _ hi', List.getElem_mapIdx]
  by_cases h : Pooled_Y.getD i 0 = 10
  · rw [if_pos (mem_get_pool_index_unknown_to_oracle.mpr ⟨hi, h⟩), if_pos h]
    rfl
  · rw [if_neg (fun hm => h (mem_get_pool_index_unknown_to_oracle.mp hm).2),
      if_neg h, List.getD_eq_getElem _ _ hi]

/-- Witness for C4 at a concrete query whose middle point is unknown to the
oracle. -/
theorem claim_C4_oracle_query_witness :
    (1 < samplePooledY.length) ∧
    (oracle_n_neighbors = 3 ∧
     (assignLabelsStep sampleRefX sampleRefY samplePooledX samplePooledY).getD 1 0 =
       (if samplePooledY.getD 1 0 = 10
        then KNOracle.assign_nearest_available_label sampleRefX sampleRefY 3
          (samplePooledX.getD 1 [])
        else samplePooledY.getD 1 0)) :=
  ⟨by decide,
    claim_C4_oracle_query sampleRefX sampleRefY samplePooledX samplePooledY 1 (by decide)⟩

/-! ## C9: the uniform initial training set -/

/-- The number of occurrence indices of class `c` equals the count of `c`. -/
theorem length_class_indices (y : List ℕ) (c : ℕ) :
    (class_indices y c).length = y.count c := by
  unfold class_indices
  induction y with
  | nil => rfl
  | cons a t ih =>
    rw [List.length_cons, List.range_succ_eq_map, List.filter_cons, List.filter_map]
    have hcomp : ((fun i => (a :: t).getD i 0 == c) ∘ Nat.succ) =
        (fun i => t.getD i 0 == c) := rfl
    have hzero : (a :: t).getD 0 0 = a := rfl
    rw [hcomp, List.count_cons]
    by_cases h : a = c
    · rw [if_pos (by rw [hzero, h]; exact beq_self_eq_true c), List.length_cons,
        List.length_map, ih]
      simp [h]
    · rw [if_neg (by rw [hzero]; simp [h]), List.length_map, ih]
      simp [h]

/-- Every occurrence index of class `c` indeed carries label `c`. -/
theorem getD_of_mem_class_indices {y : List ℕ} {c i : ℕ}
    (h : i ∈ class_indices y c) : y.getD i 0 = c := by
  unfold class_indices at h
  rw [List.mem_filter] at h
  exact beq_iff_eq.mp h.2

/-- A two-element list mapped through a function constant on it. -/
theorem map_const_two {l : List ℕ} {f : ℕ → ℕ} {c : ℕ} (hlen : l.length = 2)
    (hall : ∀ v ∈ l, f v = c) : l.map f = [c, c] := by
  obtain ⟨a, b, rfl⟩ := List.length_eq_two.mp hlen
  rw [List.map_cons, List.map_cons, List.map_nil,
    hall a (by simp), hall b (by simp)]

/-- The labels at the first two occurrence indices of a class with at least
two occurrences are the class itself, twice. -/
theorem labels_of_first_two (y : List ℕ) (c : ℕ) (h : 2 ≤ y.count c) :
    ((class_indices y c).take 2).map (fun i => y.getD i 0) = [c, c] := by
  apply map_const_two
  · rw [List.length_take, length_class_indices]
    omega
  · intro v hv
    exact getD_of_mem_class_indices ((List.take_sublist _ _).mem hv)

/-- C9: when `y_train` holds at least two examples of each digit,
`get_uniform_training_data` returns exactly 20 examples whose label list is
`[0,0,1,1,...,9,9]`: the first two occurrences of each class, concatenated
in class order, so every class appears exactly twice. -/
theorem claim_C9_uniform_training {α : Type} [Inhabited α] (x_train : List α)
    (y_train : List ℕ) (h : ∀ c, c < 10 → 2 ≤ y_train.count c) :
    (get_uniform_training_data x_train y_train).2 =
      [0, 0, 1, 1, 2, 2, 3, 3, 4, 4, 5, 5, 6, 6, 7, 7, 8, 8, 9, 9] ∧
    (get_uniform_training_data x_train y_train).1.length = 20 ∧
    (get_uniform_training_data x_train y_train).2.length = 20 ∧
    ∀ c, c < 10 → ((get_uniform_training_data x_train y_train).2).count c = 2 := by
  have hlen2 : ∀ c, c < 10 → ((class_indices y_train c).take 2).length = 2 := by
    intro c hc
    rw [List.length_take, length_class_indices]
    have := h c hc
    omega
  have hys : ∀ c, c < 10 →
      ((class_indices y_train c).take 2).map (fun i => y_train.getD i 0) = [c, c] :=
    fun c hc => labels_of_first_two y_train c (h c hc)
  have h2 : (get_uniform_training_data x_train y_train).2 =
      [0, 0, 1, 1, 2, 2, 3, 3, 4, 4, 5, 5, 6, 6, 7, 7, 8, 8, 9, 9] := by
    simp only [get_uniform_training_data]
    rw [hys 0 (by norm_num), hys 1 (by norm_num), hys 2 (by norm_num),
      hys 3 (by norm_num), hys 4 (by norm_num), hys 5 (by norm_num),
      hys 6 (by norm_num), hys 7 (by norm_num), hys 8 (by norm_num),
      hys 9 (by norm_num)]
    rfl
  refine ⟨h2, ?_, ?_, ?_⟩
  · simp only [get_uniform_training_data]
    simp only [List.length_append, List.length_map]
    rw [hlen2 0 (by norm_num), hlen2 1 (by norm_num), hlen2 2 (by norm_num),
      hlen2 3 (by norm_num), hlen2 4 (by norm_num), hlen2 5 (by norm_num),
      hlen2 6 (by norm_num), hlen2 7 (by norm_num), hlen2 8 (by norm_num),
      hlen2 9 (by norm_num)]
  · rw [h2]
    rfl
  · intro c hc
    rw [h2]
    interval_cases c <;> rfl

/-- Witness for C9 at a concrete label vector holding each digit twice. -/
theorem claim_C9_uniform_training_witness :
    (∀ c, c < 10 → 2 ≤ sampleYTrain.count c) ∧
    ((get_uniform_training_data sampleXTrain sampleYTrain).2 =
        [0, 0, 1, 1, 2, 2, 3, 3, 4, 4, 5, 5, 6, 6, 7, 7, 8, 8, 9, 9] ∧
      (get_uniform_training_data sampleXTrain sampleYTrain).1.length = 20 ∧
      (get_uniform_training_data sampleXTrain sampleYTrain).2.length = 20 ∧
      ∀ c, c < 10 →
        ((get_uniform_training_data sampleXTrain sampleYTrain).2).count c = 2) :=
  ⟨by decide, claim_C9_uniform_training sampleXTrain sampleYTrain (by decide)⟩

/-! ## C1: the BALD acquisition score -/

/-- The accumulation loop computes, pointwise, the sum of the three
dropout distributions and the sum of their base-2 entropies. -/
theorem dropoutAccum_spec (predict : ℕ → Fin pool_subset → Fin num_classes → ℝ)
    (i : Fin pool_subset) :
    (∀ c, (dropoutAccum predict).1 i c =
      ∑ d ∈ Finset.range dropout_iterations, predict d i c) ∧
    (dropoutAccum predict).2 i =
      ∑ d ∈ Finset.range dropout_iterations, entropyBase2 (predict d i) := by
  constructor
  · intro c
    rw [show (dropoutAccum predict).1 i c =
        0 + predict 0 i c + predict 1 i c + predict 2 i c from rfl]
    rw [show Finset.range dropout_iterations = Finset.range 3 from rfl]
    simp [Finset.sum_range_succ]
  · rw [show (dropoutAccum predict).2 i =
        0 + entropyBase2 (predict 0 i) + entropyBase2 (predict 1 i) +
          entropyBase2 (predict 2 i) from rfl]
    rw [show Finset.range dropout_iterations = Finset.range 3 from rfl]
    simp [Finset.sum_range_succ]

/-- C1: for every pool point of the sampled subset, the BALD score `U_X`
is the base-2 entropy of the average of the `dropout_iterations = 3`
stochastic predictive distributions minus the average of their per-pass
base-2 entropies. -/
theorem claim_C1_bald_score :
    pool_subset = 2000 ∧ dropout_iterations = 3 ∧
    ∀ (predict : ℕ → Fin pool_subset → Fin num_classes → ℝ) (i : Fin pool_subset),
      U_X predict i =
        entropyBase2 (fun c =>
          (∑ d ∈ Finset.range dropout_iterations, predict d i c) /
            (dropout_iterations : ℝ)) -
        (∑ d ∈ Finset.range dropout_iterations, entropyBase2 (predict d i)) /
          (dropout_iterations : ℝ) := by
  refine ⟨rfl, rfl, fun predict i => ?_⟩
  obtain ⟨h1, h2⟩ := dropoutAccum_spec predict i
  simp only [U_X, entropyBase2]
  rw [h2]
  congr 1
  exact Finset.sum_congr rfl (fun c _ => by rw [h1 c])

/-! ## C2: the queried points are the top `Queries` scores, descending -/

/-- C2: the selected index list has exactly `Queries = 10` distinct
entries, its scores descend, and every selected score is at least every
unselected score: the query set is exactly a maximising set of `Queries`
pool-subset points in descending score order. -/
theorem claim_C2_top_queries (scores : List ℚ) (h : Queries ≤ scores.length) :
    Queries = 10 ∧
    (x_pool_index scores).length = Queries ∧
    (x_pool_index scores).Nodup ∧
    List.Sorted (fun i j => scores.get j ≤ scores.get i) (x_pool_index scores) ∧
    ∀ j : Fin scores.length, j ∉ x_pool_index scores →
      ∀ i ∈ x_pool_index scores, scores.get j ≤ scores.get i := by
  have hlenA : (argsort scores).length = scores.length := by
    unfold argsort
    rw [List.length_insertionSort, List.length_finRange]
  haveI hTot : IsTotal (Fin scores.length) (fun i j => scores.get i ≤ scores.get j) :=
    ⟨fun a b => le_total _ _⟩
  haveI hTrans : IsTrans (Fin scores.length) (fun i j => scores.get i ≤ scores.get j) :=
    ⟨fun a b c hab hbc => le_trans hab hbc⟩
  have hsorted : List.Sorted (fun i j => scores.get i ≤ scores.get j) (argsort scores) :=
    List.sorted_insertionSort _ _
  have hperm : (argsort scores).Perm (List.finRange scores.length) :=
    List.perm_insertionSort _ _
  refine ⟨rfl, ?_, ?_, ?_, ?_⟩
  · unfold x_pool_index
    rw [List.length_reverse, List.length_drop, hlenA]
    omega
  · unfold x_pool_index
    rw [List.nodup_reverse]
    exact List.Nodup.sublist (List.drop_sublist _ _)
      (hperm.symm.nodup (List.nodup_finRange _))
  · unfold x_pool_index
    apply List.pairwise_reverse.mpr
    exact List.Pairwise.sublist (List.drop_sublist _ _) hsorted
  · intro j hj i hi
    unfold x_pool_index at hj hi
    rw [List.mem_reverse] at hj hi
    have hjA : j ∈ argsort scores := hperm.mem_iff.mpr (List.mem_finRange j)
    have hjsplit : j ∈ (argsort scores).take (scores.length - Queries) ++
        (argsort scores).drop (scores.length - Queries) := by
      rw [List.take_append_drop]
      exact hjA
    have hjtake : j ∈ (argsort scores).take (scores.length - Queries) := by
      rcases List.mem_append.mp hjsplit with h' | h'
      · exact h'
      · exact absurd h' hj
    have happ : List.Pairwise (fun i j => scores.get i ≤ scores.get j)
        ((argsort scores).take (scores.length - Queries) ++
          (argsort scores).drop (scores.length - Queries)) := by
      rw [List.take_append_drop]
      exact hsorted
    obtain ⟨-, -, hcross⟩ := List.pairwise_append.mp happ
    exact hcross j hjtake i hi

/-- Witness for C2 at a concrete 12-point score vector. -/
theorem claim_C2_top_queries_witness :
    Queries ≤ sampleScores.length ∧
    (Queries = 10 ∧
     (x_pool_index sampleScores).length = Queries ∧
     (x_pool_index sampleScores).Nodup ∧
     List.Sorted (fun i j => sampleScores.get j ≤ sampleScores.get i)
       (x_pool_index sampleScores) ∧
     ∀ j : Fin sampleScores.length, j ∉ x_pool_index sampleScores →
       ∀ i ∈ x_pool_index sampleScores, sampleScores.get j ≤ sampleScores.get i) :=
  ⟨by decide, claim_C2_top_queries sampleScores (by decide)⟩
